import Mathlib

/-!
Shallow embedding of `src/shape.py` (classes `Palette` and `Shape`) and
verification of its specified behaviour.

Modelling conventions:
* A Python `Block` value is abstract: the palette code only ever compares
  blocks with `==` and tests `is None`, so every definition is parametric in a
  type `B` with decidable equality.  A slot of the backing list is an
  `Option B`: `none` is Python's `None` (a gap), `some b` a block.
* `list.index(x)` raising `ValueError` is modelled by `pyIndex`, which returns
  `Option Nat` (`none` when the value is absent, i.e. the `ValueError` path).
* Methods whose only behaviour is to raise are modelled as returning
  `Except PyErr _` paired with the (unchanged) post-state, since a Python
  `raise` performs no mutation.
-/

namespace Penderman

/-- The Python exceptions raised by the code under consideration. -/
inductive PyErr where
  | notImplementedError
  | nameError (msg : String)
  | attributeError (msg : String)
deriving DecidableEq

/-- Embedding of Python's `list.index(x)`: the index of the first element equal
to `x`, or `none` where CPython raises `ValueError`. -/
def pyIndex {α : Type} [DecidableEq α] : List α → α → Option Nat
  | [], _ => none
  | a :: l, x => if a = x then some 0 else (pyIndex l x).map (· + 1)

/-- Embedding of Python's `list(range(a, b + 1))` over mathematical integers. -/
def pyRangeIncl (a b : Int) : List Int :=
  (List.range (b + 1 - a).toNat).map (fun (k : Nat) => a + (k : Int))

/-- `pyIndex` fails exactly on absent values (the `ValueError` path of
`list.index`). -/
theorem pyIndex_eq_none_iff {α : Type} [DecidableEq α] (l : List α) (x : α) :
    pyIndex l x = none ↔ x ∉ l := by
  induction l with
  | nil => simp [pyIndex]
  | cons a l ih =>
    by_cases h : a = x
    · subst h
      simp [pyIndex]
    · simp [pyIndex, h, Option.map_eq_none', ih, Ne.symm h]

/-- A success of `pyIndex`, `pyIndex l x = some i`, says `i` is the first index of `x` in `l`. -/
theorem pyIndex_spec {α : Type} [DecidableEq α] (l : List α) (x : α) (i : Nat) :
    pyIndex l x = some i ↔ l.get? i = some x ∧ ∀ j, j < i → l.get? j ≠ some x := by
  induction l generalizing i with
  | nil => simp [pyIndex]
  | cons a l ih =>
    by_cases h : a = x
    · subst h
      constructor
      · intro hi
        simp [pyIndex] at hi
        subst hi
        simp
      · rintro ⟨h1, h2⟩
        match i with
        | 0 => simp [pyIndex]
        | i + 1 =>
          exact absurd (h2 0 (Nat.succ_pos i)) (by simp)
    · constructor
      · intro hi
        simp only [pyIndex, if_neg h, Option.map_eq_some'] at hi
        obtain ⟨j, hj, rfl⟩ := hi
        obtain ⟨h1, h2⟩ := (ih j).mp hj
        refine ⟨by simpa using h1, ?_⟩
        intro k hk
        match k with
        | 0 => simpa using h
        | k + 1 =>
          simpa using h2 k (Nat.lt_of_succ_lt_succ hk)
      · rintro ⟨h1, h2⟩
        match i with
        | 0 => simp at h1; exact absurd h1 h
        | i + 1 =>
          have h1' : l.get? i = some x := by simpa using h1
          have h2' : ∀ j, j < i → l.get? j ≠ some x := by
            intro j hj
            simpa using h2 (j + 1) (Nat.succ_lt_succ hj)
          simp only [pyIndex, if_neg h, Option.map_eq_some']
          exact ⟨i, (ih i).mpr ⟨h1', h2'⟩, rfl⟩

/-- Membership gives a successful `pyIndex`. -/
theorem pyIndex_isSome_of_mem {α : Type} [DecidableEq α] {l : List α} {x : α}
    (h : x ∈ l) : ∃ i, pyIndex l x = some i := by
  rcases ho : pyIndex l x with _ | i
  · exact absurd ((pyIndex_eq_none_iff l x).mp ho) (by simpa using h)
  · exact ⟨i, rfl⟩

/-- The membership of `pyRangeIncl`, matching Python's inclusive range. -/
theorem mem_pyRangeIncl {a b x : Int} :
    x ∈ pyRangeIncl a b ↔ a ≤ x ∧ x ≤ b := by
  unfold pyRangeIncl
  rw [List.mem_map]
  constructor
  · rintro ⟨k, hk, rfl⟩
    rw [List.mem_range] at hk
    omega
  · rintro ⟨h1, h2⟩
    refine ⟨(x - a).toNat, ?_, ?_⟩
    · rw [List.mem_range]; omega
    · omega

/-- The `Palette` class: a block look-up table (`_blut`) with gaps, plus the
`keep_order` / `keep_small` flags taken by `__init__`. -/
structure Palette (B : Type) where
  _blut : List (Option B)
  keep_order : Bool
  keep_small : Bool
deriving DecidableEq

namespace Palette

/-- Python `Palette.__len__`: `len([None for v in self._blut if v is not None])`,
the number of non-gap entries. -/
def len {B : Type} (p : Palette B) : Nat :=
  (p._blut.filter (fun v => v.isSome)).length

/-- Python `Palette.__delitem__(index)`: with `keep_small` the entry is deleted
(successive entries shift left), otherwise the slot becomes a gap. -/
def delitem {B : Type} (p : Palette B) (index : Nat) : Palette B :=
  if p.keep_small then { p with _blut := p._blut.eraseIdx index }
  else { p with _blut := p._blut.set index none }

/-- Python `Palette.append(block, force=False)`: looks up `block`; when found and
`force` is set, `del self[index]` runs first; in every case the block is then
appended to the backing list. -/
def append {B : Type} [DecidableEq B] (p : Palette B) (block : Option B)
    (force : Bool) : Palette B :=
  match pyIndex p._blut block with
  | some index =>
    let p' := if force then p.delitem index else p
    { p' with _blut := p'._blut ++ [block] }
  | none => { p with _blut := p._blut ++ [block] }

/-- Python `Palette.count(block, force_count=False)`: returns `1` whenever `block`
is not `None` and `force_count` is off; otherwise the genuine
`self._blut.count(block)`. -/
def count {B : Type} [DecidableEq B] (p : Palette B) (block : Option B)
    (force_count : Bool) : Nat :=
  if block ≠ none ∧ force_count = false then 1
  else p._blut.count block

/-- Python `Palette.extend(blocks, force=False)`: its loop header is
`for block in block:` — the iterable expression names the loop's own (still
unbound) local variable instead of the `blocks` parameter, so CPython raises
`UnboundLocalError` (a subclass of `NameError`) before the first iteration,
for every argument including the empty sequence; the palette is not touched. -/
def extend {B : Type} (p : Palette B) (blocks : List (Option B))
    (force : Bool) : Except PyErr Unit × Palette B :=
  (Except.error (PyErr.nameError
    "cannot access local variable block where it is not associated with a value"), p)

/-- Python `Palette._map_leftshift(index1, index2)`: normalises negative indices by
`len(self)`, builds `{i: i - 1 for i in range(index1, index2 + 1)}` (modelled
as an association list in the dict's key insertion order), and remaps key `0`
to `len(self) - 1` (or `None`) when `0` is a key. -/
def map_leftshift {B : Type} (p : Palette B) (index1 index2 : Int) :
    Option (List (Int × Option Int)) :=
  let i1 := if index1 < 0 then index1 + (p.len : Int) else index1
  let i2 := if index2 < 0 then index2 + (p.len : Int) else index2
  let keys := pyRangeIncl i1 i2
  let shifted_map := keys.map (fun i => (i, some (i - 1)))
  some (if (0 : Int) ∈ keys then
    if ((p.len : Int) - 1) ∈ keys then
      shifted_map.map (fun kv => if kv.1 = 0 then (0, some ((p.len : Int) - 1)) else kv)
    else
      shifted_map.map (fun kv => if kv.1 = 0 then ((0 : Int), (none : Option Int)) else kv)
  else shifted_map)

/-- Python `Palette._map_rightshift(index1, index2)`: the body is only a docstring,
so the call returns Python's `None` for every input. -/
def map_rightshift {B : Type} (p : Palette B) (index1 index2 : Int) :
    Option (List (Int × Option Int)) :=
  none

/-- Python `Palette.add_block(block)`: `None` is returned unchanged for a `None`
input; an absent block fills the first gap (returning its index) or is
appended (returning the sentinel `-1`); a present block returns its existing
index. -/
def add_block {B : Type} [DecidableEq B] (p : Palette B) (block : Option B) :
    Palette B × Option Int :=
  match block with
  | none => (p, none)
  | some _ =>
    if block ∉ p._blut then
      match pyIndex p._blut none with
      | some index => ({ p with _blut := p._blut.set index block }, some (Int.ofNat index))
      | none => ({ p with _blut := p._blut ++ [block] }, some (-1))
    else
      (p, (pyIndex p._blut block).map Int.ofNat)

/-- Python `Palette.replace_block(current, replacement)`: when `current` is found at
`old_index`, an existing `replacement` clears that slot and returns the
existing index, otherwise the slot is overwritten in place (returning `None`
for a `None` replacement); when `current` is absent the code logs an error and
returns `self.add_block(replacement)`. -/
def replace_block {B : Type} [DecidableEq B] (p : Palette B)
    (current replacement : Option B) : Palette B × Option Int :=
  match pyIndex p._blut current with
  | some old_index =>
    match pyIndex p._blut replacement with
    | some new_index =>
      ({ p with _blut := p._blut.set old_index none }, some (Int.ofNat new_index))
    | none =>
      ({ p with _blut := p._blut.set old_index replacement },
        match replacement with
        | none => none
        | some _ => some (Int.ofNat old_index))
  | none => p.add_block replacement

/-- Python `Palette.remove_block(block)`: `return self.replace_block(block, replacement=None)`. -/
def remove_block {B : Type} [DecidableEq B] (p : Palette B) (block : Option B) :
    Palette B × Option Int :=
  p.replace_block block none

/-- Python `Palette.insert(index, block)`: `raise NotImplementedError`. -/
def insert {B : Type} (p : Palette B) (index : Int) (block : Option B) :
    Except PyErr Unit × Palette B :=
  (Except.error PyErr.notImplementedError, p)

/-- Python `Palette.pop(pos=-1)`: `raise NotImplementedError`. -/
def pop {B : Type} (p : Palette B) (pos : Int) :
    Except PyErr Unit × Palette B :=
  (Except.error PyErr.notImplementedError, p)

/-- Python `Palette.remove(block)`: `raise NotImplementedError`. -/
def remove {B : Type} (p : Palette B) (block : Option B) :
    Except PyErr Unit × Palette B :=
  (Except.error PyErr.notImplementedError, p)

/-- Python `Palette.reverse()`: `raise NotImplementedError`. -/
def reverse {B : Type} (p : Palette B) :
    Except PyErr Unit × Palette B :=
  (Except.error PyErr.notImplementedError, p)

/-- Python `Palette.sort(*, key=None, reverse=False)`: `raise NotImplementedError`. -/
def sort {B : Type} (p : Palette B) (key : Option (Option B → Int)) (rev : Bool) :
    Except PyErr Unit × Palette B :=
  (Except.error PyErr.notImplementedError, p)

/-- Python `Palette.strip()`: `raise NotImplementedError`. -/
def strip {B : Type} (p : Palette B) :
    Except PyErr Unit × Palette B :=
  (Except.error PyErr.notImplementedError, p)

end Palette

/-- The invariant "at most one non-null occurrence of any value": every non-`None` block
occurs at most once in a backing list. -/
def NoDupValues {B : Type} [DecidableEq B] (l : List (Option B)) : Prop :=
  ∀ b : B, l.count (some b) ≤ 1

/-- The `Shape` class: a 3-D integer matrix (over its construction size) and
the owned `Palette`. -/
structure Shape (B : Type) where
  size : Nat × Nat × Nat
  _matrix : Nat × Nat × Nat → Int
  _palette : Palette B

namespace Shape

/-- A position whose every coordinate is below the construction size. -/
def inBounds {B : Type} (s : Shape B) (position : Nat × Nat × Nat) : Prop :=
  position.1 < s.size.1 ∧ position.2.1 < s.size.2.1 ∧ position.2.2 < s.size.2.2

instance {B : Type} (s : Shape B) (position : Nat × Nat × Nat) :
    Decidable (s.inBounds position) := by
  unfold inBounds
  infer_instance

/-- Python `Shape.get_block(position)`: after normalising the position the body is
`return self._palette.self._matrix[*position]`; the attribute access
`self._palette.self` is evaluated first and `Palette` has no attribute
`self`, so every call raises `AttributeError` before touching the matrix. -/
def get_block {B : Type} (s : Shape B) (position : Nat × Nat × Nat) :
    Except PyErr (Option B) :=
  Except.error (PyErr.attributeError "Palette object has no attribute self")

/-- The lookup the spec says `get_block` fails to perform: dereference the
stored matrix value through the palette, `palette[matrix[position]]`
(`none` when that integer is no valid backing-list index). -/
def get_block_deref {B : Type} (s : Shape B) (position : Nat × Nat × Nat) :
    Option (Option B) :=
  s._palette._blut.get? (s._matrix position).toNat

/-- Python `Shape.transform(flip, rotation)`: `raise NotImplementedError`. -/
def transform {B : Type} (s : Shape B) (flip : Bool × Bool × Bool)
    (rotation : Int) : Except PyErr Unit × Shape B :=
  (Except.error PyErr.notImplementedError, s)

/-- Python `Shape.put_block(block, position)`: `raise NotImplementedError`. -/
def put_block {B : Type} (s : Shape B) (block : Option B)
    (position : Nat × Nat × Nat) : Except PyErr Unit × Shape B :=
  (Except.error PyErr.notImplementedError, s)

end Shape

/-!
Theorems settling each claim about the program.
-/

/-- C1: `Palette.add_block` returns `None` and leaves the palette unchanged on
a `None` input; returns the existing (first) index of an already-present block
without change; writes an absent block into the first gap and returns that
gap's index; otherwise appends and returns the sentinel `-1`. -/
theorem C1_add_block {B : Type} [DecidableEq B] (p : Palette B) (b : B) :
    p.add_block none = (p, none)
    ∧ (some b ∈ p._blut →
        p.add_block (some b) = (p, (pyIndex p._blut (some b)).map Int.ofNat))
    ∧ (some b ∉ p._blut → none ∈ p._blut →
        ∃ i, pyIndex p._blut none = some i ∧
          p.add_block (some b)
            = ({ p with _blut := p._blut.set i (some b) }, some (Int.ofNat i)))
    ∧ (some b ∉ p._blut → none ∉ p._blut →
        p.add_block (some b)
          = ({ p with _blut := p._blut ++ [some b] }, some (-1))) := by
  refine ⟨rfl, ?_, ?_, ?_⟩
  · intro h
    simp [Palette.add_block, h]
  · intro h1 h2
    obtain ⟨i, hi⟩ := pyIndex_isSome_of_mem h2
    exact ⟨i, hi, by simp [Palette.add_block, h1, hi]⟩
  · intro h1 h2
    have hn : pyIndex p._blut none = none := (pyIndex_eq_none_iff _ _).mpr h2
    simp [Palette.add_block, h1, hn]

/-- Witness for C1 on a concrete palette: adding an absent block fills the
first gap and returns its index. -/
theorem C1_add_block_witness :
    Palette.add_block (Palette.mk [some (0 : Nat), none] false false) (some 1)
      = (Palette.mk [some 0, some 1] false false, some 1) := by
  obtain ⟨i, hi, he⟩ :=
    (C1_add_block (Palette.mk [some (0 : Nat), none] false false) 1).2.2.1
      (by decide) (by decide)
  have hi1 : i = 1 := by
    have h01 : (some i : Option Nat) = some 1 := by rw [← hi]; rfl
    exact Option.some_inj.mp h01
  subst hi1
  simpa using he

/-- C2 (amended): for a present `current` found first at index `i`, a
`replacement` already present anywhere in the backing list (including at
`current`'s own slot, as when `replacement = current`) makes the slot a gap
and returns the first index of `replacement`; a `replacement` absent from the
list overwrites the slot in place, returning that index, or `None` when the
replacement is `None`. -/
theorem C2_replace_block {B : Type} [DecidableEq B] (p : Palette B)
    (current replacement : Option B) (i : Nat)
    (hc : pyIndex p._blut current = some i) :
    (∀ j, pyIndex p._blut replacement = some j →
        p.replace_block current replacement
          = ({ p with _blut := p._blut.set i none }, some (Int.ofNat j)))
    ∧ (replacement ∉ p._blut → ∀ r, replacement = some r →
        p.replace_block current replacement
          = ({ p with _blut := p._blut.set i (some r) }, some (Int.ofNat i)))
    ∧ (replacement ∉ p._blut → replacement = none →
        p.replace_block current replacement
          = ({ p with _blut := p._blut.set i none }, none)) := by
  refine ⟨?_, ?_, ?_⟩
  · intro j hj
    simp [Palette.replace_block, hc, hj]
  · intro h r hr
    subst hr
    have hn : pyIndex p._blut (some r) = none := (pyIndex_eq_none_iff _ _).mpr h
    simp [Palette.replace_block, hc, hn]
  · intro h hr
    subst hr
    have hn : pyIndex p._blut none = none := (pyIndex_eq_none_iff _ _).mpr h
    simp [Palette.replace_block, hc, hn]

/-- Witness for C2 on a concrete palette: replacing `1` by the already-present
`2` clears slot `0` and returns index `1`. -/
theorem C2_replace_block_witness :
    Palette.replace_block (Palette.mk [some (1 : Nat), some 2] false false)
        (some 1) (some 2)
      = (Palette.mk [none, some 2] false false, some 1) := by
  have h :=
    (C2_replace_block (Palette.mk [some (1 : Nat), some 2] false false)
      (some 1) (some 2) 0 (by decide)).1 1 (by decide)
  simpa using h

/-- Counterexample to C2 as stated: with backing list `[1]`, the call
`replace_block(1, 1)` has a replacement that does not occur *elsewhere* (its
only occurrence is `current`'s own slot), so the claim requires the slot to be
overwritten in place with the replacement, leaving `[1]`; the code instead
takes the already-present branch and clears the slot, leaving `[None]`. -/
theorem C2_counterexample :
    Palette.replace_block (Palette.mk [some (1 : Nat)] false false)
        (some 1) (some 1)
      = (Palette.mk [none] false false, some 0)
    ∧ Palette.mk [(none : Option Nat)] false false
        ≠ Palette.mk [some 1] false false := by
  constructor
  · rfl
  · decide

/-- C3: when `current` is absent from the palette, `replace_block` returns the
value of `add_block(replacement)` and leaves the palette in the same state as
that call (the embedding is total: every `list.index` failure in the source is
caught, so no exception escapes). -/
theorem C3_replace_block_absent {B : Type} [DecidableEq B] (p : Palette B)
    (current replacement : Option B) (h : current ∉ p._blut) :
    p.replace_block current replacement = p.add_block replacement := by
  have hn : pyIndex p._blut current = none := (pyIndex_eq_none_iff _ _).mpr h
  simp [Palette.replace_block, hn]

/-- Witness for C3 on a concrete palette: replacing the absent `2` degrades to
`add_block(3)`. -/
theorem C3_replace_block_absent_witness :
    Palette.replace_block (Palette.mk [some (1 : Nat)] false false)
        (some 2) (some 3)
      = Palette.add_block (Palette.mk [some (1 : Nat)] false false) (some 3) :=
  C3_replace_block_absent _ _ _ (by decide)

/-- C4: `remove_block(block)` returns the same value and leaves the palette in
the same state as `replace_block(block, None)`. -/
theorem C4_remove_block {B : Type} [DecidableEq B] (p : Palette B)
    (block : Option B) :
    p.remove_block block = p.replace_block block none := rfl

/-- C5 (the code bug): `append` on a palette whose backing list is `[0]`, with
the already-present block `0` and `force = False`, appends anyway and produces
`[0, 0]` — a duplicate non-null value, violating the at-most-one-occurrence
invariant the claim asserts (and the method's own docstring, "Append block to
palette if it does not exist"). -/
theorem C5_append_duplicate :
    (Palette.append (Palette.mk [some (0 : Nat)] false false) (some 0)
        false)._blut
      = [some 0, some 0]
    ∧ NoDupValues [some (0 : Nat)]
    ∧ ¬ NoDupValues [some (0 : Nat), some 0] := by
  refine ⟨rfl, ?_, ?_⟩
  · intro b
    by_cases hb : b = 0 <;> simp [List.count_cons, hb]
  · intro h
    have h0 := h 0
    simp [List.count_cons] at h0

/-- C6: for any shape and in-bounds position, `get_block` does not return any
block at all — in particular not the palette dereference of the stored matrix
value — because the lookup expression `self._palette.self._matrix[*position]`
raises `AttributeError` on the palette object. -/
theorem C6_get_block {B : Type} (s : Shape B) (position : Nat × Nat × Nat)
    (h : s.inBounds position) :
    s.get_block position
      = Except.error (PyErr.attributeError "Palette object has no attribute self")
    ∧ (∀ b : Option B, s.get_block position ≠ Except.ok b)
    ∧ (∀ b, s.get_block_deref position = some b →
        s.get_block position ≠ Except.ok b) := by
  refine ⟨rfl, ?_, ?_⟩
  · intro b hb
    exact Except.noConfusion hb
  · intro b _ hb
    exact Except.noConfusion hb

/-- Witness for C6 on a concrete one-cell shape. -/
theorem C6_get_block_witness :
    Shape.get_block
        (Shape.mk (1, 1, 1) (fun _ => 0)
          (Palette.mk [some (0 : Nat)] false false)) (0, 0, 0)
      = Except.error (PyErr.attributeError "Palette object has no attribute self") :=
  (C6_get_block
    (Shape.mk (1, 1, 1) (fun _ => 0) (Palette.mk [some (0 : Nat)] false false))
    (0, 0, 0) (by decide)).1

/-- C7 (amended): `_map_rightshift` returns `None` (no update map) for every
input, but `_map_leftshift` is complete in this source: for every pair of
indices — negative ones first normalised by adding `len(self)` — it returns
the dict over the keys `range(index1, index2 + 1)` mapping each key `i` to
`i - 1`, except that key `0`, when present, is remapped to `len(self) - 1`
when that is also a key and to `None` otherwise. -/
theorem C7_map_shift {B : Type} [DecidableEq B] (p : Palette B)
    (index1 index2 : Int) :
    p.map_rightshift index1 index2 = none
    ∧ (∃ m, p.map_leftshift index1 index2 = some m)
    ∧ (∀ i1 i2 : Int,
        i1 = (if index1 < 0 then index1 + (p.len : Int) else index1) →
        i2 = (if index2 < 0 then index2 + (p.len : Int) else index2) →
        ((0 : Int) ∉ pyRangeIncl i1 i2 →
          p.map_leftshift index1 index2
            = some ((pyRangeIncl i1 i2).map (fun i => (i, some (i - 1)))))
        ∧ ((0 : Int) ∈ pyRangeIncl i1 i2 →
            ((p.len : Int) - 1) ∈ pyRangeIncl i1 i2 →
          p.map_leftshift index1 index2
            = some ((pyRangeIncl i1 i2).map (fun i =>
                if i = 0 then ((0 : Int), some ((p.len : Int) - 1))
                else (i, some (i - 1)))))
        ∧ ((0 : Int) ∈ pyRangeIncl i1 i2 →
            ((p.len : Int) - 1) ∉ pyRangeIncl i1 i2 →
          p.map_leftshift index1 index2
            = some ((pyRangeIncl i1 i2).map (fun i =>
                if i = 0 then ((0 : Int), (none : Option Int))
                else (i, some (i - 1)))))) := by
  refine ⟨rfl, ⟨_, rfl⟩, ?_⟩
  rintro i1 i2 rfl rfl
  refine ⟨?_, ?_, ?_⟩
  · intro h0
    simp only [Palette.map_leftshift, if_neg h0]
  · intro h0 hl
    simp only [Palette.map_leftshift, if_pos h0, if_pos hl, List.map_map]
    refine congrArg some (List.map_congr_left ?_)
    intro i _
    by_cases hi : i = 0
    · subst hi
      simp
    · simp [Function.comp, hi]
  · intro h0 hl
    simp only [Palette.map_leftshift, if_pos h0, if_neg hl, List.map_map]
    refine congrArg some (List.map_congr_left ?_)
    intro i _
    by_cases hi : i = 0
    · subst hi
      simp
    · simp [Function.comp, hi]

/-- Witness for C7 on a concrete palette of length 3 and the negative index
`-3` (normalised to `0`), exercising the remap of key `0` to `len - 1`. -/
theorem C7_map_shift_witness :
    Palette.map_rightshift
        (Palette.mk [some (0 : Nat), some 1, some 2] false false) (-3) 2 = none
    ∧ Palette.map_leftshift
        (Palette.mk [some (0 : Nat), some 1, some 2] false false) (-3) 2
        = some [(0, some 2), (1, some 0), (2, some 1)] := by
  have h := C7_map_shift
    (Palette.mk [some (0 : Nat), some 1, some 2] false false) (-3) 2
  refine ⟨h.1, ?_⟩
  have h2 := (h.2.2 0 2 (by decide) (by decide)).2.1 (by decide) (by decide)
  rw [h2]
  decide

/-- Counterexample to C7 as stated: the claim says the left-shift helper never
produces a completed old-index-to-new-index update map, yet on the backing
list `[0, 1, 2]` the call `_map_leftshift(1, 2)` returns the completed map
`{1: 0, 2: 1}` (every key mapped to a new index). -/
theorem C7_counterexample :
    Palette.map_leftshift (Palette.mk [some (0 : Nat), some 1, some 2] false false)
        1 2
      = some [(1, some 0), (2, some 1)] := by
  decide

/-- C8: the unimplemented operations `insert`, `pop`, `remove`, `reverse`,
`sort`, `strip` on `Palette` and `transform`, `put_block` on `Shape` raise
`NotImplementedError` on every invocation and leave the state unchanged. -/
theorem C8_not_implemented {B : Type} (p : Palette B) (s : Shape B)
    (index pos rotation : Int) (block : Option B)
    (key : Option (Option B → Int)) (rev : Bool)
    (flip : Bool × Bool × Bool) (position : Nat × Nat × Nat) :
    p.insert index block = (Except.error PyErr.notImplementedError, p)
    ∧ p.pop pos = (Except.error PyErr.notImplementedError, p)
    ∧ p.remove block = (Except.error PyErr.notImplementedError, p)
    ∧ p.reverse = (Except.error PyErr.notImplementedError, p)
    ∧ p.sort key rev = (Except.error PyErr.notImplementedError, p)
    ∧ p.strip = (Except.error PyErr.notImplementedError, p)
    ∧ s.transform flip rotation = (Except.error PyErr.notImplementedError, s)
    ∧ s.put_block block position = (Except.error PyErr.notImplementedError, s) :=
  ⟨rfl, rfl, rfl, rfl, rfl, rfl, rfl, rfl⟩

/-- C9: with `force_count` off, `count` returns `1` for every non-`None` block
regardless of its presence; the genuine backing-list count is computed exactly
when the block is `None` or `force_count` is on. -/
theorem C9_count {B : Type} [DecidableEq B] (p : Palette B) (b : B) :
    p.count (some b) false = 1
    ∧ (∀ fc : Bool, p.count none fc = p._blut.count none)
    ∧ p.count (some b) true = p._blut.count (some b) := by
  refine ⟨?_, ?_, ?_⟩
  · simp [Palette.count]
  · intro fc
    simp [Palette.count]
  · simp [Palette.count]

/-- C10: `extend` fails with a `NameError` (its loop iterates over an unbound
local rather than the `blocks` parameter) before appending anything, for every
argument sequence, and the palette is left unchanged. -/
theorem C10_extend {B : Type} (p : Palette B) (blocks : List (Option B))
    (force : Bool) :
    (p.extend blocks force).2 = p
    ∧ ∃ msg, (p.extend blocks force).1 = Except.error (PyErr.nameError msg) :=
  ⟨rfl, _, rfl⟩

end Penderman
